import Mathlib

/-!
Shallow embedding of the assisterNode task-management backend
(`src/app.js`, `src/auth.js`, `src/middleware/authMiddleware.js`).

Conventions used throughout:
* JavaScript strings that the code inspects character by character
  (Authorization headers after splitting, `due_date` values, route ids)
  are modelled as `List Char` (`Str`), with the JS operations
  (`trim`, `split(' ')`, numeric coercion) re-implemented faithfully.
* The MySQL tables touched by the claims (`todos`, `user_tokens`) are
  modelled as lists of rows; a query's `WHERE` clause becomes a filter.
* The `node-schedule` job registry `scheduledReminderJobs` is a JS `Map`,
  modelled as an insertion-ordered association list.  JS `Map` keys are
  compared with SameValueZero semantics, so the number `1` and the string
  `"1"` are distinct keys; `MapKey` mirrors this with `num`/`str`.
* Instants are seconds since the Unix epoch (`Int`); wall-clock datetimes
  are `DT` records converted with the standard civil-calendar algorithms.
-/

/-- JS-style character list; stands in for the JS strings the code parses. -/
abbrev Str := List Char

/-- JS `String.prototype.split(' ')`: split on every single space,
producing empty chunks between consecutive spaces; `"".split(' ')` is `[""]`. -/
def jsSplitSpace : Str → List Str
  | [] => [[]]
  | c :: rest =>
    let r := jsSplitSpace rest
    if c = ' ' then [] :: r
    else
      match r with
      | [] => [[c]]
      | h :: t => (c :: h) :: t

/-- JS `String.prototype.trim()`: drop leading and trailing whitespace. -/
def jsTrim (l : Str) : Str :=
  ((l.dropWhile Char.isWhitespace).reverse.dropWhile Char.isWhitespace).reverse

/-- Value of a decimal digit character, if it is one. -/
def digitVal (c : Char) : Option Nat :=
  if c.isDigit then some (c.toNat - 48) else none

/-- Parse a non-empty all-digit string as a natural number (the coercion
MySQL applies when a string route id is compared with an `INT` column). -/
def parseNatStr (s : Str) : Option Nat :=
  match s with
  | [] => none
  | _ =>
    s.foldl (fun acc c => do
      let a ← acc
      let d ← digitVal c
      pure (a * 10 + d)) (some 0)

/-! ### Civil-calendar arithmetic for `DATETIME` values -/

/-- Gregorian leap-year test. -/
def isLeap (y : Nat) : Bool :=
  y % 4 = 0 && (y % 100 ≠ 0 || y % 400 = 0)

/-- Days in a month of a given year. -/
def daysInMonth (y m : Nat) : Nat :=
  if m = 2 then (if isLeap y then 29 else 28)
  else if m = 4 ∨ m = 6 ∨ m = 9 ∨ m = 11 then 30
  else 31

/-- Wall-clock datetime, the contents of a `YYYY-MM-DD HH:mm:ss` string. -/
structure DT where
  year : Nat
  month : Nat
  day : Nat
  hour : Nat
  minute : Nat
  second : Nat
deriving DecidableEq, Repr

/-- Days from the civil epoch 1970-01-01 (standard era/year-of-era algorithm). -/
def daysFromCivil (y m d : Nat) : Int :=
  let yi : Int := (y : Int) - (if m ≤ 2 then 1 else 0)
  let era : Int := yi.ediv 400
  let yoe : Nat := (yi - era * 400).toNat
  let mp : Nat := (m + 9) % 12
  let doy : Nat := (153 * mp + 2) / 5 + d - 1
  let doe : Nat := yoe * 365 + yoe / 4 - yoe / 100 + doy
  era * 146097 + (doe : Int) - 719468

/-- Civil date from days since 1970-01-01. -/
def civilFromDays (z : Int) : Nat × Nat × Nat :=
  let z' : Int := z + 719468
  let era : Int := z'.ediv 146097
  let doe : Nat := (z' - era * 146097).toNat
  let yoe : Nat := (doe - doe / 1460 + doe / 36524 - doe / 146096) / 365
  let y : Int := (yoe : Int) + era * 400
  let doy : Nat := doe - (365 * yoe + yoe / 4 - yoe / 100)
  let mp : Nat := (5 * doy + 2) / 153
  let d : Nat := doy - (153 * mp + 2) / 5 + 1
  let m : Nat := if mp < 10 then mp + 3 else mp - 9
  ((y + (if m ≤ 2 then 1 else 0)).toNat, m, d)

/-- Seconds since the Unix epoch of a wall-clock datetime read as UTC. -/
def secsOfDT (t : DT) : Int :=
  daysFromCivil t.year t.month t.day * 86400
    + ((t.hour * 3600 + t.minute * 60 + t.second : Nat) : Int)

/-- Wall-clock datetime (read as UTC) of a seconds-since-epoch instant. -/
def dtOfSecs (s : Int) : DT :=
  let day : Int := s.ediv 86400
  let sod : Nat := (s.emod 86400).toNat
  let ymd := civilFromDays day
  ⟨ymd.1, ymd.2.1, ymd.2.2, sod / 3600, sod % 3600 / 60, sod % 60⟩

/-- Two decimal digit characters as a number. -/
def dig2 (a b : Char) : Option Nat :=
  match digitVal a, digitVal b with
  | some x, some y => some (10 * x + y)
  | _, _ => none

/-- Four decimal digit characters as a number. -/
def dig4 (a b c d : Char) : Option Nat :=
  match dig2 a b, dig2 c d with
  | some x, some y => some (100 * x + y)
  | _, _ => none

/-- Range check for a parsed datetime (out-of-range fields are moment's
"Invalid date"). -/
def dtValid (t : DT) : Bool :=
  decide (1 ≤ t.month ∧ t.month ≤ 12 ∧ 1 ≤ t.day ∧ t.day ≤ daysInMonth t.year t.month
    ∧ t.hour < 24 ∧ t.minute < 60 ∧ t.second < 60)

/-- Parse a `YYYY-MM-DD HH:mm:ss` string; `none` on any malformed or
out-of-range input (moment's "Invalid date"). -/
def parseDT (s : Str) : Option DT :=
  match s with
  | [y1, y2, y3, y4, c1, m1, m2, c2, d1, d2, c3,
     h1, h2, c4, i1, i2, c5, s1, s2] =>
    if c1 = '-' ∧ c2 = '-' ∧ c3 = ' ' ∧ c4 = ':' ∧ c5 = ':' then
      match dig4 y1 y2 y3 y4, dig2 m1 m2, dig2 d1 d2,
            dig2 h1 h2, dig2 i1 i2, dig2 s1 s2 with
      | some yr, some mo, some dy, some hh, some mi, some ss =>
        let t : DT := ⟨yr, mo, dy, hh, mi, ss⟩
        if dtValid t then some t else none
      | _, _, _, _, _, _ => none
    else none
  | _ => none

/-- Decimal digit character. -/
def digitChar (n : Nat) : Char := Char.ofNat (48 + n % 10)

/-- Two-digit zero-padded rendering. -/
def pad2 (n : Nat) : Str := [digitChar (n / 10), digitChar n]

/-- Four-digit zero-padded rendering. -/
def pad4 (n : Nat) : Str :=
  [digitChar (n / 1000), digitChar (n / 100), digitChar (n / 10), digitChar n]

/-- Format a datetime as `YYYY-MM-DD HH:mm:ss`. -/
def formatDT (t : DT) : Str :=
  pad4 t.year ++ ['-'] ++ pad2 t.month ++ ['-'] ++ pad2 t.day ++ [' ']
    ++ pad2 t.hour ++ [':'] ++ pad2 t.minute ++ [':'] ++ pad2 t.second

/-- Offset of the reference timezone `Asia/Kolkata` (+05:30), in seconds. -/
def istOffsetSecs : Int := 330 * 60

/-- `moment.tz(due_date, 'Asia/Kolkata').format('YYYY-MM-DD HH:mm:ss')`
(app.js 439/474): parse the request's string as an IST wall clock and
re-render the same wall clock — the value stored in the `DATETIME` column. -/
def toStoredDueDate (s : Str) : Option Str :=
  (parseDT s).map formatDT

/-- `moment.tz(dueDateIST, 'Asia/Kolkata').toDate()` (app.js 456/495):
the absolute instant of the stored wall clock interpreted in IST. -/
def instantOfStoredIST (stored : Str) : Option Int :=
  (parseDT stored).map (fun dt => secsOfDT dt - istOffsetSecs)

/-- The GET rendering pipeline (app.js 421): the MySQL driver reads the
stored `DATETIME` wall clock in the Node process's local timezone
(offset `procOffsetMin` minutes) to obtain an instant (`new Date`), then
`moment.utc(d).tz('Asia/Kolkata').format('YYYY-MM-DD HH:mm:ss')` renders
that instant in IST. -/
def renderDueDateIST (stored : Str) (procOffsetMin : Int) : Option Str :=
  (parseDT stored).map
    (fun dt => formatDT (dtOfSecs (secsOfDT dt - procOffsetMin * 60 + istOffsetSecs)))

/-! ### Reminder scheduler (`scheduledReminderJobs`, app.js 14, 211-236) -/

/-- A JS `Map` key: JS compares keys with SameValueZero, so the number `1`
(used by `POST /todos` via `result.insertId`) and the string `"1"` (used by
`PUT`/`DELETE /todos/:id` via `req.params.id`) are distinct keys. -/
inductive MapKey where
  | num (n : Nat)
  | str (s : Str)
deriving DecidableEq, Repr

/-- A `node-schedule` job: the one-shot timer created by
`schedule.scheduleJob(reminderDateUTC, callback)`.  `cancelled` records
whether `job.cancel()` has been called; a cancelled job never fires. -/
structure Job where
  fireAt : Int
  tokens : List String
  title : String
  cancelled : Bool
deriving DecidableEq, Repr

/-- The `scheduledReminderJobs` map, insertion-ordered as a JS `Map` is. -/
abbrev Registry := List (MapKey × Job)

/-- `scheduledReminderJobs.has(k)`. -/
def mapHas (reg : Registry) (k : MapKey) : Bool :=
  reg.any (fun e => e.1 == k)

/-- `scheduledReminderJobs.get(k).cancel()`: mark the job under `k` cancelled
(the entry itself stays in the map). -/
def mapCancel (reg : Registry) (k : MapKey) : Registry :=
  reg.map (fun e => if e.1 == k then (e.1, { e.2 with cancelled := true }) else e)

/-- `scheduledReminderJobs.set(k, j)`: replace in place, or append. -/
def mapSet (reg : Registry) (k : MapKey) (j : Job) : Registry :=
  if mapHas reg k then reg.map (fun e => if e.1 == k then (k, j) else e)
  else reg ++ [(k, j)]

/-- `scheduledReminderJobs.delete(k)`. -/
def mapDelete (reg : Registry) (k : MapKey) : Registry :=
  reg.filter (fun e => e.1 != k)

/-- `scheduleReminderNotification(todoId, reminderDateUTC, fcmTokens, title)`
(app.js 211-228): cancel any job already under this key, then, unless the
fire instant is at or before now, register a fresh one-shot job. -/
def scheduleReminderNotification (now : Int) (reg : Registry) (todoId : MapKey)
    (fireAt : Int) (fcm : List String) (title : String) : Registry :=
  let reg1 := if mapHas reg todoId then mapCancel reg todoId else reg
  if fireAt ≤ now then reg1
  else mapSet reg1 todoId ⟨fireAt, fcm, title, false⟩

/-- `cancelReminderNotification(todoId)` (app.js 230-236): if a job is
registered under this key, cancel it and remove the entry; no-op otherwise. -/
def cancelReminderNotification (reg : Registry) (todoId : MapKey) : Registry :=
  if mapHas reg todoId then mapDelete (mapCancel reg todoId) todoId else reg

/-- The job callback after firing (app.js 221-224): the job removes its own
registry entry. -/
def fireReminder (reg : Registry) (todoId : MapKey) : Registry :=
  mapDelete reg todoId

/-- The future firings still pending: one per registered, not-cancelled job,
with its fire instant. -/
def liveFirings (reg : Registry) : List (MapKey × Int) :=
  (reg.filter (fun e => !e.2.cancelled)).map (fun e => (e.1, e.2.fireAt))

/-! ### Token authority and access-control middleware
(`src/auth.js`, `src/middleware/authMiddleware.js`) -/

/-- The JWT payload decoded by `jwt.verify`: `generateToken` signs
`{ id, email }` with `expiresIn: '365d'`, so the decoded payload carries
`id`, `email` and the baked-in `exp` instant.  The middleware consults only
`id`; it verifies with `ignoreExpiration: true`, so `exp` is never read. -/
structure JwtPayload where
  id : Nat
  email : String
  exp : Int
deriving DecidableEq, Repr

/-- Outcome of the middleware: either an early JSON error response, or the
request proceeds to its handler with `req.user` and `req.token` attached. -/
inductive AuthOutcome where
  | reject (status : Nat) (error : String)
  | allow (user : JwtPayload) (token : Str)
deriving DecidableEq, Repr

/-- HTTP status of the middleware outcome, `none` when the handler runs. -/
def AuthOutcome.statusCode : AuthOutcome → Option Nat
  | .reject s _ => some s
  | .allow _ _ => none

/-- `SELECT * FROM user_tokens WHERE user_id = ? AND token = ?` is nonempty:
the server-side token ledger has a row for this exact pair. -/
def ledgerHas (ledger : List (Nat × Str)) (uid : Nat) (tok : Str) : Bool :=
  ledger.any (fun r => r.1 == uid && r.2 == tok)

/-- The middleware after header parsing (authMiddleware.js 25-47): verify the
signature (expiry ignored), then require a ledger row for the exact
`(user.id, token)` pair.  `vfy` abstracts `jwt.verify(token, JWT_SECRET,
{ ignoreExpiration: true })`: `none` means the signature or format is bad. -/
def authAfterParse (vfy : Str → Option JwtPayload) (ledger : List (Nat × Str))
    (tok : Str) : AuthOutcome :=
  match vfy tok with
  | none => .reject 403 "Invalid token signature"
  | some user =>
    if ledgerHas ledger user.id tok then .allow user tok
    else .reject 403 "Token not recognized, please login again"

/-- `authMiddleware` (authMiddleware.js 4-57).  `authHeader` is
`req.headers['authorization']` (`none` when absent); JS `!authHeader` is also
true for the empty string.  The header is trimmed and split on single
spaces, and must be exactly `["Bearer", token]`.  The middleware mutates no
server state: it only reads the ledger. -/
def authMiddleware (vfy : Str → Option JwtPayload) (ledger : List (Nat × Str)) :
    Option Str → AuthOutcome
  | none => .reject 401 "Token required"
  | some h =>
    if h = [] then .reject 401 "Token required"
    else
      match jsSplitSpace (jsTrim h) with
      | [b, tok] =>
        if b = "Bearer".toList then authAfterParse vfy ledger tok
        else .reject 401 "Malformed Authorization header"
      | _ => .reject 401 "Malformed Authorization header"

/-- `POST /logout` (app.js 611-619), the part acting on the token ledger:
`DELETE FROM user_tokens WHERE user_id = ? AND token = ?`. -/
def logoutLedger (ledger : List (Nat × Str)) (uid : Nat) (tok : Str) :
    List (Nat × Str) :=
  ledger.filter (fun r => !(r.1 == uid && r.2 == tok))

/-! ### Todos resource repository (app.js 405-545) -/

/-- A row of the `todos` table. -/
structure Todo where
  id : Nat
  user_id : Nat
  title : String
  description : Option String
  status : String
  priority : String
  category_id : Option Nat
  due_date : Option Str
deriving DecidableEq, Repr

/-- Server state the todo routes touch: the `todos` table, the in-process
reminder registry, and the table's `AUTO_INCREMENT` counter. -/
structure AppState where
  todos : List Todo
  registry : Registry
  nextId : Nat
deriving DecidableEq, Repr

/-- JSON response of a todo route. -/
inductive TodoResp where
  | todo (t : Todo)
  | created (id : Nat)
  | msg (status : Nat) (message : String)
  | err (status : Nat) (error : String)
  | errs (status : Nat) (fields : List String)
deriving DecidableEq, Repr

/-- JS `v || null` for a string field: `undefined` and `''` become `NULL`. -/
def jsStrOrNull (v : Option String) : Option String :=
  match v with
  | none => none
  | some s => if s = "" then none else some s

/-- JS `v || null` for a numeric field: `undefined` and `0` become `NULL`. -/
def jsNatOrNull (v : Option Nat) : Option Nat :=
  match v with
  | none => none
  | some n => if n = 0 then none else some n

/-- JS `v || dflt` for a string field. -/
def jsStrOr (v : Option String) (dflt : String) : String :=
  match v with
  | none => dflt
  | some s => if s = "" then dflt else s

/-- `express-validator`'s `body('title').notEmpty()`: fails when the field is
absent or the empty string. -/
def titleValid : Option String → Bool
  | none => false
  | some s => s != ""

/-- `WHERE id = ?` with a string route parameter against the `INT` column:
MySQL coerces the string to a number. -/
def sqlIdMatches (idStr : Str) (id : Nat) : Bool :=
  parseNatStr idStr == some id

/-- `WHERE id = ? AND user_id = ?` for one row. -/
def todoMatches (idStr : Str) (uid : Nat) (t : Todo) : Bool :=
  sqlIdMatches idStr t.id && t.user_id == uid

/-- Result of `admin.messaging().sendMulticast` as the code observes it. -/
inductive PushResult where
  | skipped
  | sent (successCount failureCount : Nat)
  | errorLogged (msg : String)
deriving DecidableEq, Repr

/-- `getUserFcmTokens` (app.js 182-190): a DB failure is caught and yields
the empty token list. -/
def getUserFcmTokens (dbResult : Except String (List String)) : List String :=
  match dbResult with
  | .ok rows => rows
  | .error _ => []

/-- `sendPushNotification` (app.js 192-209): empty token set is skipped
silently; a transport error is logged and swallowed.  The function cannot
propagate a failure to its caller. -/
def sendPushNotification (fcmTokens : List String)
    (transport : Except String (Nat × Nat)) : PushResult :=
  if fcmTokens.isEmpty then .skipped
  else
    match transport with
    | .ok r => .sent r.1 r.2
    | .error e => .errorLogged e

/-- Body of `POST /todos`; `none` marks an absent JSON field. -/
structure CreateReq where
  title : Option String
  description : Option String
  status : Option String
  priority : Option String
  category_id : Option Nat
  due_date : Option Str
deriving DecidableEq, Repr

/-- The insert-and-schedule tail of `POST /todos` (app.js 441-460), after
validation and due-date conversion: insert the row (defaults applied by
`|| ...`), send the immediate push, and, when a due date was stored,
schedule the reminder keyed by the numeric `result.insertId`. -/
def createInsert (now : Int) (uid : Nat) (tokensDb : Except String (List String))
    (transport : Except String (Nat × Nat)) (t : String) (req : CreateReq)
    (dueStored : Option Str) (st : AppState) :
    TodoResp × AppState × Option PushResult :=
  let fcm := getUserFcmTokens tokensDb
  let todo : Todo := ⟨st.nextId, uid, t, jsStrOrNull req.description,
    jsStrOr req.status "pending", jsStrOr req.priority "medium",
    jsNatOrNull req.category_id, dueStored⟩
  let push := sendPushNotification fcm transport
  let reg' :=
    match dueStored with
    | none => st.registry
    | some ds =>
      match instantOfStoredIST ds with
      | none => st.registry
      | some inst => scheduleReminderNotification now st.registry (.num st.nextId) inst fcm t
  (.created st.nextId, ⟨st.todos ++ [todo], reg', st.nextId + 1⟩, some push)

/-- `POST /todos` (app.js 432-465).  `title` must be non-empty (400 with an
`errors` array otherwise); a falsy `due_date` is skipped; an unparseable one
makes the `INSERT` fail (500).  The third component is the push-notification
outcome (`none` when the route never reached dispatch). -/
def createTodoH (now : Int) (uid : Nat) (tokensDb : Except String (List String))
    (transport : Except String (Nat × Nat)) (req : CreateReq) (st : AppState) :
    TodoResp × AppState × Option PushResult :=
  match req.title with
  | none => (.errs 400 ["title"], st, none)
  | some t =>
    if t = "" then (.errs 400 ["title"], st, none)
    else
      match req.due_date with
      | none => createInsert now uid tokensDb transport t req none st
      | some d =>
        if d = [] then createInsert now uid tokensDb transport t req none st
        else
          match toStoredDueDate d with
          | none => (.err 500 "invalid due_date", st, none)
          | some ds => createInsert now uid tokensDb transport t req (some ds) st

/-- `GET /todos/:id` (app.js 405-429): fetch the row scoped to the
authenticated user; 404 when no row matches; render `due_date` through the
driver/moment pipeline (process-local offset `procOffsetMin`). -/
def getTodoH (procOffsetMin : Int) (idStr : Str) (uid : Nat) (st : AppState) :
    TodoResp :=
  match st.todos.find? (todoMatches idStr uid) with
  | none => .err 404 "Todo not found"
  | some t =>
    .todo { t with due_date := t.due_date.bind (fun s => renderDueDateIST s procOffsetMin) }

/-- Body of `PUT /todos/:id` (all mutable fields are replaced). -/
structure UpdateReq where
  title : String
  description : Option String
  status : String
  priority : String
  category_id : Option Nat
  due_date : Option Str
deriving DecidableEq, Repr

/-- The tail of `PUT /todos/:id` (app.js 477-499) once the `UPDATE` matched a
row: replace the fields, push, cancel any reminder under the string route-id
key, and schedule a new one under that same string key when a due date was
stored. -/
def updateApply (now : Int) (uid : Nat) (idStr : Str) (fcm : List String)
    (r : UpdateReq) (dueStored : Option Str) (st : AppState) :
    TodoResp × AppState :=
  let todos' := st.todos.map (fun t =>
    if todoMatches idStr uid t then
      { t with title := r.title, description := r.description, status := r.status,
               priority := r.priority, category_id := r.category_id,
               due_date := dueStored }
    else t)
  let reg1 := cancelReminderNotification st.registry (.str idStr)
  let reg2 :=
    match dueStored with
    | none => reg1
    | some ds =>
      match instantOfStoredIST ds with
      | none => reg1
      | some inst => scheduleReminderNotification now reg1 (.str idStr) inst fcm r.title
  (.msg 200 "Todo updated", ⟨todos', reg2, st.nextId⟩)

/-- `PUT /todos/:id` (app.js 468-504): 404 when the `UPDATE` matched no row
owned by the caller; a falsy `due_date` stores `NULL`; an unparseable one
fails the matched `UPDATE` (500). -/
def updateTodoH (now : Int) (uid : Nat) (idStr : Str) (fcm : List String)
    (r : UpdateReq) (st : AppState) : TodoResp × AppState :=
  if (st.todos.filter (todoMatches idStr uid)).isEmpty then
    (.err 404 "Todo not found", st)
  else
    match r.due_date with
    | none => updateApply now uid idStr fcm r none st
    | some d =>
      if d = [] then updateApply now uid idStr fcm r none st
      else
        match toStoredDueDate d with
        | none => (.err 500 "invalid due_date", st)
        | some ds => updateApply now uid idStr fcm r (some ds) st

/-- `DELETE /todos/:id` (app.js 506-521): 404 when no owned row matches;
otherwise delete the row and call `cancelReminderNotification` with the
string route id. -/
def deleteTodoH (idStr : Str) (uid : Nat) (st : AppState) : TodoResp × AppState :=
  if (st.todos.filter (todoMatches idStr uid)).isEmpty then
    (.err 404 "Todo not found", st)
  else
    (.msg 200 "Todo deleted",
     ⟨st.todos.filter (fun t => !todoMatches idStr uid t),
      cancelReminderNotification st.registry (.str idStr), st.nextId⟩)

/-- `POST /todos/:id/complete` (app.js 523-545): 404 when no owned row
matches; otherwise set `status = 'completed'`.  The route never touches the
reminder registry. -/
def completeTodoH (idStr : Str) (uid : Nat) (st : AppState) : TodoResp × AppState :=
  if (st.todos.filter (todoMatches idStr uid)).isEmpty then
    (.err 404 "Todo not found", st)
  else
    (.msg 200 "Todo marked as complete",
     ⟨st.todos.map (fun t =>
        if todoMatches idStr uid t then { t with status := "completed" } else t),
      st.registry, st.nextId⟩)

/-! ### Concrete fixtures used by witnesses and counterexamples -/

/-- A signature verifier recognising two tokens of user 1 (`jwt.verify` with a
fixed secret would behave this way for two tokens it issued). -/
def vfyDemo : Str → Option JwtPayload := fun tok =>
  if tok = "tokA".toList then some ⟨1, "a@x.com", 1750000000⟩
  else if tok = "tokB".toList then some ⟨1, "a@x.com", 1750000000⟩
  else none

/-- A ledger holding only the first of the two demo tokens. -/
def ledgerDemo : List (Nat × Str) := [(1, "tokA".toList)]

/-- Empty server state with `AUTO_INCREMENT` at 1. -/
def demoState0 : AppState := ⟨[], [], 1⟩

/-- A creation request with a future IST due date. -/
def demoCreate : CreateReq :=
  ⟨some "Pay rent", none, none, none, none, some "2025-03-01 10:00:00".toList⟩

/-- An update moving the due date earlier (still in the future). -/
def demoUpdate : UpdateReq :=
  ⟨"Pay rent", none, "pending", "medium", none, some "2025-02-01 10:00:00".toList⟩

/-- A live registered job. -/
def demoJob : Job := ⟨200, [], "t", false⟩

/-- State holding one todo owned by user 1. -/
def demoStateOwned : AppState :=
  ⟨[⟨1, 1, "secret errand", none, "pending", "medium", none, none⟩], [], 2⟩

/-- A full-replace update body. -/
def demoUpdatePlain : UpdateReq := ⟨"x", none, "pending", "medium", none, none⟩

/-! ### Helper lemmas -/

theorem bearer_parse_ne_nil {h tok : Str}
    (hp : jsSplitSpace (jsTrim h) = ["Bearer".toList, tok]) : h ≠ [] := by
  intro he
  subst he
  rw [show jsTrim ([] : Str) = [] from rfl] at hp
  rw [show jsSplitSpace ([] : Str) = [[]] from rfl] at hp
  simp at hp

theorem ledgerHas_logoutLedger (ledger : List (Nat × Str)) (uid : Nat) (tok : Str) :
    ledgerHas (logoutLedger ledger uid tok) uid tok = false := by
  induction ledger with
  | nil => rfl
  | cons hd tl ih =>
    simp only [logoutLedger, List.filter_cons] at ih ⊢
    cases hb : (hd.1 == uid && hd.2 == tok) with
    | true => simpa [hb] using ih
    | false =>
      simp only [hb, Bool.not_false, if_true]
      simp only [ledgerHas, List.any_cons, hb, Bool.false_or] at ih ⊢
      exact ih

/-! ### Claim theorems -/

/-- Claim C1: on every protected request the middleware rejects a missing
(or empty, which JS treats the same) Authorization header with 401 and body
error "Token required"; rejects with 401 any header that does not split into
exactly two space-separated parts with first part `Bearer`; rejects with 403
when the signature does not verify; rejects with 403 and a "please login
again" message when the signature verifies but no ledger row matches the
exact `(user_id, token)` pair; and otherwise attaches the resolved user and
token and lets the handler run.  The model middleware is a pure function of
the ledger: it mutates no state. -/
theorem authMiddleware_branches (vfy : Str → Option JwtPayload)
    (ledger : List (Nat × Str)) :
    authMiddleware vfy ledger none = .reject 401 "Token required"
    ∧ (∀ h : Str, (∀ tok : Str, jsSplitSpace (jsTrim h) ≠ ["Bearer".toList, tok]) →
        (authMiddleware vfy ledger (some h)).statusCode = some 401)
    ∧ (∀ h tok : Str, jsSplitSpace (jsTrim h) = ["Bearer".toList, tok] →
        vfy tok = none →
        authMiddleware vfy ledger (some h) = .reject 403 "Invalid token signature")
    ∧ (∀ (h tok : Str) (u : JwtPayload),
        jsSplitSpace (jsTrim h) = ["Bearer".toList, tok] →
        vfy tok = some u → ledgerHas ledger u.id tok = false →
        authMiddleware vfy ledger (some h)
          = .reject 403 "Token not recognized, please login again")
    ∧ (∀ (h tok : Str) (u : JwtPayload),
        jsSplitSpace (jsTrim h) = ["Bearer".toList, tok] →
        vfy tok = some u → ledgerHas ledger u.id tok = true →
        authMiddleware vfy ledger (some h) = .allow u tok) := by
  refine ⟨rfl, ?_, ?_, ?_, ?_⟩
  · intro h hmal
    by_cases hE : h = []
    · simp [authMiddleware, hE, AuthOutcome.statusCode]
    · simp only [authMiddleware, if_neg hE]
      split
      · rename_i b tok heq
        by_cases hb : b = ['B', 'e', 'a', 'r', 'e', 'r']
        · subst hb
          exact absurd heq (hmal tok)
        · simp [hb, AuthOutcome.statusCode]
      · rfl
  · intro h tok hp hv
    have hE := bearer_parse_ne_nil hp
    simp [authMiddleware, if_neg hE, hp, authAfterParse, hv]
  · intro h tok u hp hv hl
    have hE := bearer_parse_ne_nil hp
    simp [authMiddleware, if_neg hE, hp, authAfterParse, hv, hl]
  · intro h tok u hp hv hl
    have hE := bearer_parse_ne_nil hp
    simp [authMiddleware, if_neg hE, hp, authAfterParse, hv, hl]

theorem authMiddleware_branches_witness :
    authMiddleware vfyDemo ledgerDemo none = .reject 401 "Token required"
    ∧ (authMiddleware vfyDemo ledgerDemo (some "garbage".toList)).statusCode = some 401
    ∧ authMiddleware vfyDemo ledgerDemo (some "Bearer bad".toList)
        = .reject 403 "Invalid token signature"
    ∧ authMiddleware vfyDemo ledgerDemo (some "Bearer tokB".toList)
        = .reject 403 "Token not recognized, please login again"
    ∧ authMiddleware vfyDemo ledgerDemo (some "Bearer tokA".toList)
        = .allow ⟨1, "a@x.com", 1750000000⟩ "tokA".toList := by
  obtain ⟨h1, h2, h3, h4, h5⟩ := authMiddleware_branches vfyDemo ledgerDemo
  refine ⟨h1, h2 _ ?_,
          h3 "Bearer bad".toList "bad".toList (by decide) (by decide),
          h4 "Bearer tokB".toList "tokB".toList ⟨1, "a@x.com", 1750000000⟩
            (by decide) (by decide) (by decide),
          h5 "Bearer tokA".toList "tokA".toList ⟨1, "a@x.com", 1750000000⟩
            (by decide) (by decide) (by decide)⟩
  intro tok hcontra
  rw [show jsSplitSpace (jsTrim "garbage".toList) = ["garbage".toList] from by decide] at hcontra
  simp at hcontra

/-- Claim C2: once logout has deleted a token's ledger row, every subsequent
protected request bearing that token is rejected with 403, whatever the
(still signature-valid) token's baked-in `exp` is: the verifier `vfy`, its
answer `u` (including `u.exp`), and the rest of the ledger are universally
quantified, and the middleware model never consults `exp` — mirroring
`ignoreExpiration: true` — so the ledger alone controls revocation. -/
theorem revoked_token_rejected (vfy : Str → Option JwtPayload)
    (ledger : List (Nat × Str)) (h tok : Str) (u : JwtPayload)
    (hp : jsSplitSpace (jsTrim h) = ["Bearer".toList, tok])
    (hv : vfy tok = some u) :
    authMiddleware vfy (logoutLedger ledger u.id tok) (some h)
      = .reject 403 "Token not recognized, please login again" := by
  have hE := bearer_parse_ne_nil hp
  simp [authMiddleware, if_neg hE, hp, authAfterParse, hv, ledgerHas_logoutLedger]

theorem revoked_token_rejected_witness :
    authMiddleware vfyDemo (logoutLedger ledgerDemo 1 "tokA".toList)
        (some "Bearer tokA".toList)
      = .reject 403 "Token not recognized, please login again" :=
  revoked_token_rejected vfyDemo ledgerDemo "Bearer tokA".toList "tokA".toList
    ⟨1, "a@x.com", 1750000000⟩ (by decide) (by decide)

/-- Claim C3: for a todo owned by user A, any other user B's
`getTodo`/`updateTodo`/`deleteTodo`/`completeTodo` on its id answers
404 "Todo not found" and leaves the state untouched.  The hypothesis —
no row with this id belongs to B — covers both "owned by someone else" and
"no such todo at all", and the response is the same literal value in both
situations, so the two cases are indistinguishable to B. -/
theorem cross_user_access_not_found (off now : Int) (idStr : Str) (uid : Nat)
    (fcm : List String) (r : UpdateReq) (st : AppState)
    (hno : ∀ t ∈ st.todos, sqlIdMatches idStr t.id = true → t.user_id ≠ uid) :
    getTodoH off idStr uid st = .err 404 "Todo not found"
    ∧ updateTodoH now uid idStr fcm r st = (.err 404 "Todo not found", st)
    ∧ deleteTodoH idStr uid st = (.err 404 "Todo not found", st)
    ∧ completeTodoH idStr uid st = (.err 404 "Todo not found", st) := by
  have hmatch : ∀ t ∈ st.todos, ¬ todoMatches idStr uid t := by
    intro t ht
    simp only [todoMatches, Bool.and_eq_true, beq_iff_eq, not_and]
    intro hid huid
    exact hno t ht hid huid
  have hfil : st.todos.filter (todoMatches idStr uid) = [] :=
    List.filter_eq_nil_iff.mpr hmatch
  have hfind : st.todos.find? (todoMatches idStr uid) = none :=
    List.find?_eq_none.mpr hmatch
  refine ⟨?_, ?_, ?_, ?_⟩
  · simp [getTodoH, hfind]
  · simp [updateTodoH, hfil]
  · simp [deleteTodoH, hfil]
  · simp [completeTodoH, hfil]

theorem cross_user_access_not_found_witness :
    getTodoH 0 "1".toList 2 demoStateOwned = .err 404 "Todo not found"
    ∧ updateTodoH 0 2 "1".toList [] demoUpdatePlain demoStateOwned
        = (.err 404 "Todo not found", demoStateOwned)
    ∧ deleteTodoH "1".toList 2 demoStateOwned = (.err 404 "Todo not found", demoStateOwned)
    ∧ completeTodoH "1".toList 2 demoStateOwned = (.err 404 "Todo not found", demoStateOwned) :=
  cross_user_access_not_found 0 0 "1".toList 2 [] demoUpdatePlain demoStateOwned
    (by decide)

/-- Claim C4 (refuted — the code has a key-type bug): creating todo 1 with a
future due date schedules its reminder under the numeric `Map` key
`result.insertId`, while the subsequent `PUT /todos/1` cancels and
reschedules under the string key `req.params.id`; JS `Map` keeps those
distinct, so after create-then-update two live timers exist for the same
todo — one at the old instant `t1` under `1`, one at the new instant `t2`
under `"1"` — where the claim demands exactly one future firing at `t2`. -/
theorem create_then_update_two_live_timers :
    liveFirings ((updateTodoH 0 7 "1".toList [] demoUpdate
        ((createTodoH 0 7 (.ok []) (.ok (0, 0)) demoCreate demoState0).2.1)).2).registry
      = [(.num 1, 1740803400), (.str "1".toList, 1738384200)] := by decide

/-- Claim C5 (refuted — the code has a timezone round-trip bug): `createTodo`
stores the IST wall-clock string unchanged ("2025-03-01 10:00:00"), but
`getTodo` re-reads that stored wall clock as a process-local instant (here a
UTC process, offset 0, as on typical cloud deployments) and then shifts it
into IST, rendering "2025-03-01 15:30:00" — not the identical local string
the claim requires. -/
theorem due_date_roundtrip_shifted :
    toStoredDueDate "2025-03-01 10:00:00".toList = some "2025-03-01 10:00:00".toList
    ∧ getTodoH 0 "1".toList 7 ((createTodoH 0 7 (.ok []) (.ok (0, 0)) demoCreate demoState0).2.1)
        = .todo ⟨1, 7, "Pay rent", none, "pending", "medium", none,
            some "2025-03-01 15:30:00".toList⟩ := by
  constructor
  · decide
  · decide

/-- Claim C6 counterexample: scheduling a past instant for a todo id that has
a live timer does not leave the registry unchanged — the code cancels the
existing job before the past-date guard returns. -/
theorem schedule_past_mutates_registry :
    scheduleReminderNotification 100 [(.num 1, demoJob)] (.num 1) 50 [] "t"
      ≠ [(.num 1, demoJob)] := by decide

/-- Claim C6 as amended: scheduling a fire instant at or before now performs
no firing and registers no timer, and leaves the registry unchanged when no
timer is registered under that todo id; but when one is registered, the
existing job is first cancelled and its entry (now holding a cancelled job)
remains in the registry. -/
theorem schedule_past_amended (now fireAt : Int) (reg : Registry) (k : MapKey)
    (fcm : List String) (title : String) (hpast : fireAt ≤ now) :
    scheduleReminderNotification now reg k fireAt fcm title
      = (if mapHas reg k then mapCancel reg k else reg)
    ∧ (mapHas reg k = false →
        scheduleReminderNotification now reg k fireAt fcm title = reg) := by
  unfold scheduleReminderNotification
  constructor
  · simp [hpast]
  · intro hmh
    simp [hpast, hmh]

theorem schedule_past_amended_witness :
    scheduleReminderNotification 100 [(.num 1, demoJob)] (.num 1) 50 [] "t"
      = mapCancel [(.num 1, demoJob)] (.num 1) := by
  have h := (schedule_past_amended 100 50 [(.num 1, demoJob)] (.num 1) [] "t"
    (by decide)).1
  rw [h]
  decide

/-- Claim C7 (refuted — same key-type bug as C4): deleting todo 1 calls
`cancelReminderNotification(req.params.id)` with the string `"1"`, which
misses the live job registered under the numeric key `1` at creation; after
the delete the todos table is empty yet the registry still holds one live
timer, violating "registry size ≤ number of todos with a future, uncancelled
due_date" and "deleteTodo removes and cancels any live timer". -/
theorem delete_leaves_live_timer :
    ((deleteTodoH "1".toList 7
        ((createTodoH 0 7 (.ok []) (.ok (0, 0)) demoCreate demoState0).2.1)).2).todos = []
    ∧ liveFirings ((deleteTodoH "1".toList 7
        ((createTodoH 0 7 (.ok []) (.ok (0, 0)) demoCreate demoState0).2.1)).2).registry
      = [(.num 1, 1740803400)] := by
  constructor
  · decide
  · decide

/-- Claim C8: notification dispatch never fails or blocks the enclosing
operation — an empty device-token set is skipped silently; a transport error
is captured as a logged result, never a thrown one; a failed token fetch
yields the empty list; and the `POST /todos` response is identical whatever
the token-fetch and transport outcomes are, so the HTTP request completes
with its success status regardless. -/
theorem notification_failures_swallowed :
    (∀ transport, sendPushNotification [] transport = .skipped)
    ∧ (∀ (t : String) (ts : List String) (e : String),
        sendPushNotification (t :: ts) (.error e) = .errorLogged e)
    ∧ (∀ e : String, getUserFcmTokens (.error e) = [])
    ∧ (∀ (now : Int) (uid : Nat) (tdb tdb' : Except String (List String))
        (tp tp' : Except String (Nat × Nat)) (req : CreateReq) (st : AppState),
        (createTodoH now uid tdb tp req st).1 = (createTodoH now uid tdb' tp' req st).1) := by
  refine ⟨fun _ => rfl, fun _ _ _ => rfl, fun _ => rfl, ?_⟩
  intro now uid tdb tdb' tp tp' req st
  rcases req with ⟨title, d, s, p, c, dd⟩
  cases title with
  | none => rfl
  | some t =>
    by_cases ht : t = ""
    · simp [createTodoH, ht]
    · cases dd with
      | none => simp [createTodoH, createInsert, ht]
      | some dstr =>
        by_cases hd : dstr = ([] : Str)
        · simp [createTodoH, createInsert, ht, hd]
        · cases hts : toStoredDueDate dstr <;>
            simp [createTodoH, createInsert, ht, hd, hts]

/-- Claim C9: `createTodo` rejects an absent or empty title with 400; a
request omitting the optional fields stores `status = 'pending'`,
`priority = 'medium'`, and `NULL` description, category and due date; and a
present due date is stored as its conversion through the reference-timezone
pipeline (`toStoredDueDate`). -/
theorem createTodo_validation_and_defaults (now : Int) (uid : Nat)
    (tdb : Except String (List String)) (tp : Except String (Nat × Nat))
    (st : AppState) :
    (∀ d s p c dd, createTodoH now uid tdb tp ⟨none, d, s, p, c, dd⟩ st
        = (.errs 400 ["title"], st, none))
    ∧ (∀ d s p c dd, createTodoH now uid tdb tp ⟨some "", d, s, p, c, dd⟩ st
        = (.errs 400 ["title"], st, none))
    ∧ (∀ t : String, t ≠ "" →
        (createTodoH now uid tdb tp ⟨some t, none, none, none, none, none⟩ st).1
          = .created st.nextId
        ∧ (createTodoH now uid tdb tp ⟨some t, none, none, none, none, none⟩ st).2.1
          = ⟨st.todos ++ [⟨st.nextId, uid, t, none, "pending", "medium", none, none⟩],
             st.registry, st.nextId + 1⟩)
    ∧ (∀ (t : String) (due ds : Str), t ≠ "" → due ≠ [] →
        toStoredDueDate due = some ds →
        (createTodoH now uid tdb tp ⟨some t, none, none, none, none, some due⟩ st).2.1.todos
          = st.todos ++ [⟨st.nextId, uid, t, none, "pending", "medium", none, some ds⟩]) := by
  refine ⟨fun _ _ _ _ _ => rfl, fun _ _ _ _ _ => rfl, ?_, ?_⟩
  · intro t ht
    constructor <;>
      simp [createTodoH, createInsert, ht, jsStrOrNull, jsStrOr, jsNatOrNull]
  · intro t due ds ht hdue hds
    simp [createTodoH, createInsert, ht, hdue, hds, jsStrOrNull, jsStrOr, jsNatOrNull]

theorem createTodo_validation_and_defaults_witness :
    createTodoH 0 7 (.ok []) (.ok (0, 0)) ⟨none, none, none, none, none, none⟩ demoState0
      = (.errs 400 ["title"], demoState0, none)
    ∧ (createTodoH 0 7 (.ok []) (.ok (0, 0))
        ⟨some "Pay rent", none, none, none, none, none⟩ demoState0).2.1
      = ⟨[⟨1, 7, "Pay rent", none, "pending", "medium", none, none⟩], [], 2⟩
    ∧ (createTodoH 0 7 (.ok []) (.ok (0, 0)) demoCreate demoState0).2.1.todos
      = [⟨1, 7, "Pay rent", none, "pending", "medium", none,
          some "2025-03-01 10:00:00".toList⟩] := by
  obtain ⟨h1, h2, h3, h4⟩ :=
    createTodo_validation_and_defaults 0 7 (.ok []) (.ok (0, 0)) demoState0
  refine ⟨h1 none none none none none, ?_, ?_⟩
  · simpa [demoState0] using (h3 "Pay rent" (by decide)).2
  · simpa [demoState0, demoCreate] using
      h4 "Pay rent" "2025-03-01 10:00:00".toList "2025-03-01 10:00:00".toList
        (by decide) (by decide) (by decide)

/-- Claim C10: `POST /todos/:id/complete` never touches the reminder
registry — the registry, its live firings, and the id counter are unchanged,
and the todos table changes at most by setting `status = 'completed'` on the
caller's matching row — so a live reminder stays scheduled and still fires
at its instant even though the todo is completed. -/
theorem completeTodo_preserves_registry (idStr : Str) (uid : Nat) (st : AppState) :
    (completeTodoH idStr uid st).2.registry = st.registry
    ∧ liveFirings (completeTodoH idStr uid st).2.registry = liveFirings st.registry
    ∧ (completeTodoH idStr uid st).2.nextId = st.nextId
    ∧ ((completeTodoH idStr uid st).2.todos = st.todos
       ∨ (completeTodoH idStr uid st).2.todos
          = st.todos.map (fun t =>
              if todoMatches idStr uid t then { t with status := "completed" } else t)) := by
  unfold completeTodoH
  split <;> simp
